import Mathlib

/-!
Shallow embedding of `src/add_session_tool_simple.py`, the patch-apply-verify-
rollback engine that adds a `session_consult` tool to ECHO agent files.

File contents are modelled as `List Char`.  The filesystem visible to one
pipeline run is the target file plus its sibling `.backup` file, each an
`Option (List Char)` (`none` = the file does not exist on disk).  The external
`mix compile` verifier is a black box: its exit code and captured streams are
an input (`VerifyResult`) to the run.

The two regular expressions in the script are concatenations of `\s+` tokens
and literal tokens in which every literal starts with a non-whitespace
character, so Python's leftmost search with greedy `\s+` is equivalent to the
deterministic matcher below: at each candidate start, `\s+` consumes the
maximal nonempty whitespace run and each literal must follow exactly
(backtracking to a shorter whitespace run would place a whitespace character
where the literal's non-whitespace first character is required).
`re.sub` replaces every non-overlapping match, scanning left to right.
-/

set_option maxRecDepth 1000000

namespace Echo

/-- ASCII whitespace, as matched by Python's `\s` and stripped by `str.rstrip()`. -/
def isWS (c : Char) : Bool :=
  c = ' ' || c = '\t' || c = '\n' || c = '\r' || c = '\x0b' || c = '\x0c'

/-- Python `str.upper()` on the ASCII role names used here. -/
def upper (s : List Char) : List Char :=
  s.map Char.toUpper

/-- Python's substring test `needle in hay`. -/
def substr (needle : List Char) : List Char → Bool
  | [] => needle.isEmpty
  | c :: rest => needle.isPrefixOf (c :: rest) || substr needle rest

/-- Python `str.rstrip()`: remove trailing whitespace. -/
def rstrip (s : List Char) : List Char :=
  (s.reverse.dropWhile (fun c => isWS c)).reverse

/-- One token of the script's regular expressions: `\s+` or a literal. -/
inductive RTok where
  | ws : RTok
  | lit : List Char → RTok

/-- Match a token sequence at the start of `s`; return the text consumed by
each token and the remainder.  `\s+` consumes the maximal nonempty whitespace
run (equivalent to Python's greedy matching here, see the header comment). -/
def matchToks : List RTok → List Char → Option (List (List Char) × List Char)
  | [], s => some ([], s)
  | RTok.ws :: ts, s =>
    let w := s.takeWhile (fun c => isWS c)
    if w = [] then none
    else
      match matchToks ts (s.drop w.length) with
      | some (segs, rest) => some (w :: segs, rest)
      | none => none
  | RTok.lit l :: ts, s =>
    if l.isPrefixOf s then
      match matchToks ts (s.drop l.length) with
      | some (segs, rest) => some (l :: segs, rest)
      | none => none
    else none

/-- Worker for `reSearch`: `pre` accumulates, in reverse, the characters
already scanned past (tail-recursive so that long scans reduce in bounded
stack space). -/
def reSearchAux (toks : List RTok) (pre : List Char) :
    List Char → Option (List Char × List (List Char) × List Char)
  | [] =>
    match matchToks toks [] with
    | some (segs, rest) => some (pre.reverse, segs, rest)
    | none => none
  | c :: s =>
    match matchToks toks (c :: s) with
    | some (segs, rest) => some (pre.reverse, segs, rest)
    | none => reSearchAux toks (c :: pre) s

/-- Python `re.search`: leftmost match.  Returns the text before the match,
the per-token matched segments, and the text after the match. -/
def reSearch (toks : List RTok) (s : List Char) :
    Option (List Char × List (List Char) × List Char) :=
  reSearchAux toks [] s

/-- Python `re.sub`: replace every non-overlapping match, left to right.
`fuel` bounds the recursion; both patterns consume at least one character per
match, so `s.length + 1` fuel (see `reSub`) never runs out. -/
def reSubAux (toks : List RTok) (repl : List (List Char) → List Char) :
    Nat → List Char → List Char
  | 0, s => s
  | Nat.succ n, s =>
    match reSearch toks s with
    | none => s
    | some (pre, segs, rest) => pre ++ repl segs ++ reSubAux toks repl n rest

/-- List length with a forced accumulator (`acc` is pattern-matched every
step, so kernel reduction keeps it a literal and needs only bounded stack,
unlike `List.length` whose reduction nests once per element). -/
def lenAcc (acc : Nat) : List Char → Nat
  | [] => acc
  | _ :: rest =>
    match acc with
    | 0 => lenAcc 1 rest
    | n + 1 => lenAcc (n + 2) rest

/-- Python `re.sub(pattern, repl, s)`; the fuel `lenAcc 1 s = s.length + 1`
is ample, as every match of the patterns used here consumes at least one
character. -/
def reSub (toks : List RTok) (repl : List (List Char) → List Char) (s : List Char) : List Char :=
  reSubAux toks repl (lenAcc 1 s) s

/-- `tool_pattern = r'(\s+})\s+(\]\s+end\s+@impl true\s+def execute_tool)'`
tokenized; group 1 is tokens 0-1, group 2 is tokens 3-9. -/
def toolToks : List RTok :=
  [RTok.ws, RTok.lit ("\x7d").data, RTok.ws, RTok.lit ("]").data, RTok.ws,
   RTok.lit ("end").data, RTok.ws, RTok.lit ("@impl true").data, RTok.ws,
   RTok.lit ("def execute_tool").data]

/-- `catchall_pattern = r'(\s+def execute_tool\(name, _args\) do)'` tokenized;
group 1 is the whole match. -/
def catchToks : List RTok :=
  [RTok.ws, RTok.lit ("def execute_tool(name, _args) do").data]

/-- The literal `TOOL_DEF_TEMPLATE` string of the script. -/
def TOOL_DEF_TEMPLATE : String :=
  "      \x7d,\n" ++
  "      %\x7b\n" ++
  "        name: \"session_consult\",\n" ++
  "        description: \"\"\"\n" ++
  "        Query the AI assistant with conversation memory (LocalCode-style).\n" ++
  "\n" ++
  "        Maintains multi-turn conversations with automatic context injection:\n" ++
  "        - Your role, responsibilities, and authority limits\n" ++
  "        - Recent decisions and messages (last 5 each)\n" ++
  "        - Current system status (PostgreSQL, Redis, Ollama)\n" ++
  "        - Git context (branch, last commit)\n" ++
  "        - Conversation history (last 5 turns)\n" ++
  "\n" ++
  "        Perfect for exploratory questions, decision analysis with iterative thinking,\n" ++
  "        and strategy planning with follow-up questions.\n" ++
  "        \"\"\",\n" ++
  "        inputSchema: %\x7b\n" ++
  "          type: \"object\",\n" ++
  "          properties: %\x7b\n" ++
  "            question: %\x7b\n" ++
  "              type: \"string\",\n" ++
  "              description: \"The question to ask the AI assistant\",\n" ++
  "              minLength: 1\n" ++
  "            \x7d,\n" ++
  "            session_id: %\x7b\n" ++
  "              type: \"string\",\n" ++
  "              description: \"Session ID to continue conversation (optional, omit for new session)\"\n" ++
  "            \x7d,\n" ++
  "            context: %\x7b\n" ++
  "              type: \"string\",\n" ++
  "              description: \"Additional context for this specific query (optional)\"\n" ++
  "            \x7d\n" ++
  "          \x7d,\n" ++
  "          required: [\"question\"]\n" ++
  "        \x7d\n" ++
  "      \x7d"

/-- Replacement for step 1, `rf'\1,{TOOL_DEF_TEMPLATE}\n    \2'`:
group 1, a comma, the template, `\n` plus four spaces, group 2. -/
def toolRepl (segs : List (List Char)) : List Char :=
  (segs.take 2).flatten ++ (",").data ++ TOOL_DEF_TEMPLATE.data ++
    ("\n    ").data ++ (segs.drop 3).flatten

/-- First literal chunk of the script's f-string `handler_code`
(everything before the `{role}` interpolation). -/
def handlerChunkA : String :=
  "\n  def execute_tool(\"session_consult\", args) do\n" ++
  "    question = Map.fetch!(args, \"question\")\n" ++
  "    session_id = Map.get(args, \"session_id\")\n" ++
  "    context = Map.get(args, \"context\")\n" ++
  "\n" ++
  "    opts = if context, do: [context: context], else: []\n" ++
  "\n" ++
  "    case DecisionHelper.consult_session(:"

/-- Chunk of `handler_code` between `{role}` and `{agent_dir}`. -/
def handlerChunkB : String :=
  ", session_id, question, opts) do\n" ++
  "      \x7b:ok, result\x7d ->\n" ++
  "        response = format_session_response(result)\n" ++
  "        \x7b:ok, response\x7d\n" ++
  "\n" ++
  "      \x7b:error, :llm_disabled\x7d ->\n" ++
  "        \x7b:error, \"LLM is disabled for "

/-- Chunk of `handler_code` between `{agent_dir}` and `{agent_dir.upper()}`. -/
def handlerChunkC : String :=
  ". Enable with LLM_ENABLED=true or "

/-- Final literal chunk of `handler_code`, after `{agent_dir.upper()}`. -/
def handlerChunkD : String :=
  "_LLM_ENABLED=true\"\x7d\n" ++
  "\n" ++
  "      \x7b:error, :session_not_found\x7d ->\n" ++
  "        \x7b:error, \"Session not found: #\x7bsession_id\x7d. It may have expired after 1 hour of inactivity.\"\x7d\n" ++
  "\n" ++
  "      \x7b:error, reason\x7d ->\n" ++
  "        \x7b:error, \"AI consultation failed: #\x7binspect(reason)\x7d\"\x7d\n" ++
  "    end\n" ++
  "  end\n"

/-- The script's f-string `handler_code` for a given agent and role. -/
def handler_code (agent_dir role : List Char) : List Char :=
  handlerChunkA.data ++ role ++ handlerChunkB.data ++ agent_dir ++
    handlerChunkC.data ++ upper agent_dir ++ handlerChunkD.data

/-- Replacement for step 2, `rf'{handler_code}\1'`. -/
def catchRepl (agent_dir role : List Char) (segs : List (List Char)) : List Char :=
  handler_code agent_dir role ++ segs.flatten

/-- First literal chunk of the script's f-string `helper_code`. -/
def helperChunkA : String :=
  "\n  defp format_session_response(result) do\n" ++
  "    model = EchoShared.LLM.Config.get_model(:"

/-- Chunk of `helper_code` between `{role}` and `{agent_dir}`. -/
def helperChunkB : String :=
  ")\n" ++
  "\n" ++
  "    base = %\x7b\n" ++
  "      \"response\" => result.response,\n" ++
  "      \"session_id\" => result.session_id,\n" ++
  "      \"turn_count\" => result.turn_count,\n" ++
  "      \"estimated_tokens\" => result.total_tokens,\n" ++
  "      \"model\" => model,\n" ++
  "      \"agent\" => \""

/-- Final literal chunk of `helper_code`, after `{agent_dir}`. -/
def helperChunkC : String :=
  "\"\n" ++
  "    \x7d\n" ++
  "\n" ++
  "    if result.warnings != [] do\n" ++
  "      Map.put(base, \"warnings\", result.warnings)\n" ++
  "    else\n" ++
  "      base\n" ++
  "    end\n" ++
  "  end\n"

/-- The script's f-string `helper_code` for a given agent and role. -/
def helper_code (agent_dir role : List Char) : List Char :=
  helperChunkA.data ++ role ++ helperChunkB.data ++ agent_dir ++ helperChunkC.data

/-- The idempotency marker the script checks for: `'"session_consult"'`. -/
def sessionMarker : List Char := ("\"session_consult\"").data

/-- The positive-evidence substring required in the verifier's stdout. -/
def generatedMarker : List Char := ("Generated").data

/-- Captured outcome of the external `mix compile` invocation. -/
structure VerifyResult where
  returncode : Int
  stdout : List Char
  stderr : List Char
deriving DecidableEq

/-- The script's success test: `result.returncode == 0 and 'Generated' in result.stdout`. -/
def verifyOk (v : VerifyResult) : Bool :=
  (v.returncode == 0) && substr generatedMarker v.stdout

/-- The files a single pipeline run touches: the target file and its
`.backup` sibling.  `none` means the file does not exist on disk. -/
structure FS where
  file : Option (List Char)
  backup : Option (List Char)
deriving DecidableEq

/-- Which exit the per-target pipeline took. -/
inductive Status where
  | fileNotFound
  | alreadyPatched
  | anchorNotFound
  | verifyFailed
  | success
deriving DecidableEq

/-- The boolean `add_session_consult` returns for each exit. -/
def retOf : Status → Bool
  | Status.alreadyPatched => true
  | Status.success => true
  | _ => false

/-- Observable outcome of one per-target pipeline run: the final filesystem
state, the exit taken, and whether a backup was written, the target file was
written, and the verifier was invoked during the run. -/
structure RunOut where
  fs : FS
  status : Status
  madeBackup : Bool
  wroteFile : Bool
  ranVerifier : Bool
deriving DecidableEq

/-- The in-memory content the script writes: step 1 (`re.sub` of the tools
list-end pattern), step 2 (`re.sub` of the catch-all pattern), then step 3
(`content.rstrip() + helper_code + "\nend\n"`). -/
def patchedContent (agent_dir role content : List Char) : List Char :=
  rstrip (reSub catchToks (catchRepl agent_dir role)
            (reSub toolToks toolRepl content)) ++
    helper_code agent_dir role ++ ("\nend\n").data

/-- The per-target pipeline `add_session_consult(agent_dir, role)`, with the
external verifier's behaviour supplied as `v`. -/
def add_session_consult (agent_dir role : List Char) (v : VerifyResult) (fs : FS) : RunOut :=
  match fs.file with
  | none => ⟨fs, Status.fileNotFound, false, false, false⟩
  | some content =>
    if substr sessionMarker content then
      ⟨fs, Status.alreadyPatched, false, false, false⟩
    else
      match reSearch toolToks content with
      | none => ⟨⟨some content, some content⟩, Status.anchorNotFound, true, false, false⟩
      | some _ =>
        if verifyOk v then
          ⟨⟨some (patchedContent agent_dir role content), none⟩,
            Status.success, true, true, true⟩
        else
          ⟨⟨some content, some content⟩, Status.verifyFailed, true, true, true⟩

/-- One batch entry: the agent's identifying parameters, the behaviour of the
verifier for it, and its slice of the filesystem. -/
structure TargetCfg where
  agent_dir : List Char
  role : List Char
  verifier : VerifyResult
  fs : FS

/-- Run the pipeline on one batch entry. -/
def runTarget (t : TargetCfg) : RunOut :=
  add_session_consult t.agent_dir t.role t.verifier t.fs

/-- The `main` loop: process every target in order, counting `True` returns;
the summary line prints this count over the total. -/
def runBatch : List TargetCfg → List RunOut × Nat
  | [] => ([], 0)
  | t :: ts =>
    let r := runTarget t
    let p := runBatch ts
    (r :: p.1, (if retOf r.status then 1 else 0) + p.2)

/-- Number of positions at which `needle` occurs in `hay`. -/
def countOcc (needle : List Char) : List Char → Nat
  | [] => 0
  | c :: rest => (if needle.isPrefixOf (c :: rest) then 1 else 0) + countOcc needle rest

/-- Tail-recursive evaluator deciding `countOcc needle hay = n` on long
contents in bounded stack space. -/
def countIs (needle : List Char) : List Char → Nat → Bool
  | [], n => n == 0
  | c :: rest, n =>
    if needle.isPrefixOf (c :: rest) then !(n == 0) && countIs needle rest (n - 1)
    else countIs needle rest n

/-- Tail-recursive evaluator deciding `l.length = n` on long contents in
bounded stack space. -/
def lenIs : List Char → Nat → Bool
  | [], n => n == 0
  | _ :: rest, n => !(n == 0) && lenIs rest (n - 1)

/-- Largest index at which `pat` occurs in `s`, if any; `i` is the index of
the head of `s`, `best` the best index found so far (tail-recursive). -/
def lastIdxAux (pat : List Char) : List Char → Nat → Option Nat → Option Nat
  | [], _, best => best
  | c :: s, i, best =>
    lastIdxAux pat s (i + 1) (if pat.isPrefixOf (c :: s) then some i else best)

/-- Modelled from the spec: the module-end anchor operation of §4.2/§4.3 is
not what the code performs, so the spec's words — the helper fragment is
"inserted immediately before the final closing token of the enclosing unit" —
are modelled here as inserting `frag` immediately before the last occurrence
of the closing token `end` in `s`. -/
def insertBeforeFinalEnd (s frag : List Char) : List Char :=
  match lastIdxAux ("end").data s 0 none with
  | none => s ++ frag
  | some i => s.take i ++ frag ++ s.drop i

/-- Whether a pattern matches at least twice (a leftmost match exists, and
another match exists in the text after it). -/
def twoMatches (toks : List RTok) (s : List Char) : Bool :=
  match reSearch toks s with
  | none => false
  | some (_, _, rest1) => (reSearch toks rest1).isSome

/-- A minimal well-formed agent module: tools list with its list-end anchor,
a specific handler, the catch-all handler, and the module-closing `end`. -/
def base0 : List Char :=
  ("defmodule Cto do\n  def tools do\n    [\n      %\x7b\n        name: \"ask\"\n" ++
   "      \x7d\n    ]\n  end\n\n  @impl true\n  def execute_tool(\"ask\", _args) do\n" ++
   "    :ok\n  end\n\n  def execute_tool(name, _args) do\n    :error\n  end\nend\n").data

/-- A crafted file in which the list-end anchor pattern occurs twice. -/
def two0 : List Char :=
  ("defmodule A do\n  x\n      \x7d\n    ]\n  end\n  @impl true\n" ++
   "  def execute_tool(\"a\") do\n  end\n  y\n      \x7d\n    ]\n  end\n" ++
   "  @impl true\n  def execute_tool(name, _args) do\n  end\nend\n").data

/-- Like `base0` but with the catch-all handler `def execute_tool(name, _args) do`
removed. -/
def noCatch0 : List Char :=
  ("defmodule Cto do\n  def tools do\n    [\n      %\x7b\n        name: \"ask\"\n" ++
   "      \x7d\n    ]\n  end\n\n  @impl true\n  def execute_tool(\"ask\", _args) do\n" ++
   "    :ok\n  end\nend\n").data

/-- A file with no tools list at all: the list-end anchor pattern is absent. -/
def noAnchor0 : List Char :=
  ("defmodule A do\nend\n").data

/-- The agent directory used by the concrete runs. -/
def ad0 : List Char := ("cto").data

/-- The role used by the concrete runs. -/
def role0 : List Char := ("cto").data

/-- A verifier outcome that proves success: exit 0 and `Generated` in stdout. -/
def vOk : VerifyResult :=
  ⟨0, ("Compiling 1 file (.ex)\nGenerated cto app\n").data, ("").data⟩

/-- A verifier outcome with exit 0 but no positive evidence in stdout. -/
def vFail : VerifyResult :=
  ⟨0, ("ok\n").data, ("").data⟩

/-- Initial filesystem for `base0`: target file present, no backup. -/
def fs0 : FS := ⟨some base0, none⟩

/-- Initial filesystem for `two0`. -/
def fsTwo : FS := ⟨some two0, none⟩

/-- Initial filesystem for `noCatch0`. -/
def fsNoCatch : FS := ⟨some noCatch0, none⟩

/-- Initial filesystem for `noAnchor0`. -/
def fsNoAnchor : FS := ⟨some noAnchor0, none⟩

/-- Filesystem in which the target file does not exist. -/
def fsMissing : FS := ⟨none, none⟩

/-- Distinctive line of the schema fragment, used to count insertions. -/
def toolNameSnippet : List Char := ("name: \"session_consult\",").data

/-- Batch target that succeeds (`base0`, verifier proves success). -/
def tgt1 : TargetCfg := ⟨ad0, role0, vOk, fs0⟩

/-- Batch target that fails verification (`base0`, no positive evidence). -/
def tgt2 : TargetCfg := ⟨ad0, role0, vFail, fs0⟩

/-- `substr` decides the `IsInfix` relation. -/
theorem substr_iff {n h : List Char} : substr n h = true ↔ n <:+: h := by
  induction h with
  | nil =>
    simp only [substr, List.isEmpty_iff]
    constructor
    · rintro rfl; exact List.infix_rfl
    · intro hi
      exact List.eq_nil_of_infix_nil hi
  | cons c rest ih =>
    simp only [substr, Bool.or_eq_true, List.isPrefixOf_iff_prefix, ih,
      List.infix_cons_iff]

/-- `countIs` decides `countOcc`, in bounded stack space. -/
theorem countIs_iff {needle : List Char} :
    ∀ (hay : List Char) (n : Nat), countIs needle hay n = true ↔ countOcc needle hay = n := by
  intro hay
  induction hay with
  | nil =>
    intro n
    simp only [countIs, countOcc, beq_iff_eq]
    omega
  | cons c rest ih =>
    intro n
    by_cases hp : needle.isPrefixOf (c :: rest) = true
    · cases n with
      | zero => simp [countIs, countOcc, hp]
      | succ m =>
        have h1 : countIs needle (c :: rest) (m + 1) = countIs needle rest m := by
          simp [countIs, hp]
        rw [h1, ih]
        simp only [countOcc, hp, if_true]
        omega
    · simp [countIs, countOcc, hp, ih]

/-- `lenIs` decides `List.length`, in bounded stack space. -/
theorem lenIs_iff : ∀ (l : List Char) (n : Nat), lenIs l n = true ↔ l.length = n := by
  intro l
  induction l with
  | nil =>
    intro n
    simp only [lenIs, beq_iff_eq, List.length_nil]
    omega
  | cons c rest ih =>
    intro n
    cases n with
    | zero => simp [lenIs]
    | succ m =>
      have h1 : lenIs (c :: rest) (m + 1) = lenIs rest m := by
        simp [lenIs]
      rw [h1, ih]
      simp


/-- Infix containment extends along an append on the right. -/
theorem infix_left {n a : List Char} (b : List Char) (h : n <:+: a) : n <:+: a ++ b := by
  obtain ⟨s, t, e⟩ := h
  exact ⟨s, t ++ b, by rw [← e]; simp⟩

/-- Infix containment extends along an append on the left. -/
theorem infix_right {n b : List Char} (a : List Char) (h : n <:+: b) : n <:+: a ++ b := by
  obtain ⟨s, t, e⟩ := h
  exact ⟨a ++ s, t, by rw [← e]; simp⟩

/-- A nonempty needle whose first character is not whitespace survives
`dropWhile isWS`. -/
theorem infix_dropWhile_of_head {c : Char} {n h : List Char} (hc : isWS c = false)
    (hin : (c :: n) <:+: h) : (c :: n) <:+: h.dropWhile (fun x => isWS x) := by
  induction h with
  | nil => simpa using List.eq_nil_of_infix_nil hin
  | cons a h ih =>
    rw [List.dropWhile_cons]
    by_cases ha : isWS a = true
    · simp only [ha, if_true]
      rcases List.infix_cons_iff.mp hin with hp | hi2
      · obtain ⟨he, -⟩ := List.cons_prefix_cons.mp hp
        rw [he, ha] at hc
        cases hc
      · exact ih hi2
    · simp only [ha, if_false]
      exact hin

/-- A needle whose last character is not whitespace survives `rstrip`. -/
theorem infix_rstrip_of_last {n s : List Char} {c : Char} (hc : isWS c = false)
    (h : (n ++ [c]) <:+: s) : (n ++ [c]) <:+: rstrip s := by
  have h1 : (n ++ [c]).reverse <:+: s.reverse := List.reverse_infix.mpr h
  rw [List.reverse_append] at h1
  simp only [List.reverse_singleton, List.singleton_append] at h1
  have h2 := infix_dropWhile_of_head hc h1
  unfold rstrip
  refine List.reverse_infix.mp ?_
  rw [List.reverse_reverse, List.reverse_append]
  simpa using h2

/-- The idempotency marker ends in a double quote, a non-whitespace character. -/
theorem sessionMarker_split :
    sessionMarker = ("\"session_consult").data ++ [('"' : Char)] := by decide

/-- The marker survives `rstrip`. -/
theorem marker_rstrip {s : List Char} (h : sessionMarker <:+: s) :
    sessionMarker <:+: rstrip s := by
  rw [sessionMarker_split] at h ⊢
  exact infix_rstrip_of_last (by decide) h

/-- `lenAcc` computes length plus the accumulator. -/
theorem lenAcc_eq : ∀ (l : List Char) (acc : Nat), lenAcc acc l = acc + l.length := by
  intro l
  induction l with
  | nil => intro acc; simp [lenAcc]
  | cons c rest ih =>
    intro acc
    cases acc with
    | zero => rw [lenAcc]; rw [ih]; simp only [List.length_cons]; omega
    | succ n => rw [lenAcc]; rw [ih]; simp only [List.length_cons]; omega

/-- The fuel `reSub` starts with. -/
theorem lenAcc_one (s : List Char) : lenAcc 1 s = s.length + 1 := by
  rw [lenAcc_eq]
  omega

/-- If no match is found, `re.sub` returns its input unchanged. -/
theorem reSub_eq_of_none {toks : List RTok} {repl : List (List Char) → List Char}
    {s : List Char} (h : reSearch toks s = none) : reSub toks repl s = s := by
  unfold reSub
  rw [lenAcc_one, reSubAux, h]

/-- If a leftmost match is found, `re.sub` returns the prefix, the
replacement, and the substituted remainder. -/
theorem reSub_eq_of_some {toks : List RTok} {repl : List (List Char) → List Char}
    {s p rest : List Char} {segs : List (List Char)}
    (h : reSearch toks s = some (p, segs, rest)) :
    reSub toks repl s = p ++ repl segs ++ reSubAux toks repl s.length rest := by
  unfold reSub
  rw [lenAcc_one, reSubAux, h]

/-- The marker occurs in the schema template. -/
theorem marker_in_toolDef : sessionMarker <:+: TOOL_DEF_TEMPLATE.data :=
  substr_iff.mp (by decide)

/-- The marker occurs in every step-1 replacement text. -/
theorem marker_in_toolRepl (segs : List (List Char)) :
    sessionMarker <:+: toolRepl segs :=
  marker_in_toolDef.trans
    ⟨(segs.take 2).flatten ++ (",").data,
     ("\n    ").data ++ (segs.drop 3).flatten,
     by simp [toolRepl, List.append_assoc]⟩

/-- The marker occurs in the dispatch fragment, whatever the parameters. -/
theorem marker_in_handler (ad role : List Char) :
    sessionMarker <:+: handler_code ad role := by
  have h0 : sessionMarker <:+: handlerChunkA.data := substr_iff.mp (by decide)
  exact h0.trans
    ⟨[], role ++ handlerChunkB.data ++ ad ++ handlerChunkC.data ++
      upper ad ++ handlerChunkD.data,
     by simp [handler_code, List.append_assoc]⟩

/-- After the step-1 substitution fires, the content contains the marker. -/
theorem marker_in_toolSub {content p rest : List Char} {segs : List (List Char)}
    (h : reSearch toolToks content = some (p, segs, rest)) :
    sessionMarker <:+: reSub toolToks toolRepl content := by
  rw [reSub_eq_of_some h]
  exact (marker_in_toolRepl segs).trans
    ⟨p, reSubAux toolToks toolRepl content.length rest, by simp [List.append_assoc]⟩

/-- The step-2 substitution preserves the marker (and introduces it again
whenever it fires). -/
theorem marker_in_catchSub (ad role : List Char) {c1 : List Char}
    (h : sessionMarker <:+: c1) :
    sessionMarker <:+: reSub catchToks (catchRepl ad role) c1 := by
  cases hs : reSearch catchToks c1 with
  | none => rw [reSub_eq_of_none hs]; exact h
  | some x =>
    obtain ⟨p, segs, rest⟩ := x
    rw [reSub_eq_of_some hs]
    exact (marker_in_handler ad role).trans
      ⟨p, segs.flatten ++ reSubAux catchToks (catchRepl ad role) c1.length rest,
       by simp [catchRepl, List.append_assoc]⟩

/-- Whenever the list-end anchor matched, the content the script writes
contains the idempotency marker. -/
theorem marker_in_patched (ad role : List Char) {content p rest : List Char}
    {segs : List (List Char)}
    (h : reSearch toolToks content = some (p, segs, rest)) :
    sessionMarker <:+: patchedContent ad role content := by
  have h2 := marker_rstrip (marker_in_catchSub ad role (marker_in_toolSub h))
  exact h2.trans
    ⟨[], helper_code ad role ++ ("\nend\n").data,
     by simp [patchedContent, List.append_assoc]⟩

/-- Pipeline branch: the target file does not exist. -/
theorem run_none {ad role : List Char} {v : VerifyResult} {fs : FS}
    (h : fs.file = none) :
    add_session_consult ad role v fs = ⟨fs, Status.fileNotFound, false, false, false⟩ := by
  unfold add_session_consult
  rw [h]

/-- Pipeline branch: the idempotency marker is already present. -/
theorem run_skip {ad role : List Char} {v : VerifyResult} {fs : FS} {content : List Char}
    (h : fs.file = some content) (hm : substr sessionMarker content = true) :
    add_session_consult ad role v fs = ⟨fs, Status.alreadyPatched, false, false, false⟩ := by
  unfold add_session_consult
  rw [h]
  simp [hm]

/-- Pipeline branch: the list-end anchor pattern is absent (note: the backup
has already been written when this is detected). -/
theorem run_noanchor {ad role : List Char} {v : VerifyResult} {fs : FS} {content : List Char}
    (h : fs.file = some content) (hm : substr sessionMarker content = false)
    (hs : reSearch toolToks content = none) :
    add_session_consult ad role v fs =
      ⟨⟨some content, some content⟩, Status.anchorNotFound, true, false, false⟩ := by
  unfold add_session_consult
  rw [h]
  simp [hm, hs]

/-- Pipeline branch: patched, written, verifier did not prove success;
the file is rewritten from the backup and the backup file is left behind. -/
theorem run_vfail {ad role : List Char} {v : VerifyResult} {fs : FS} {content : List Char}
    {x : List Char × List (List Char) × List Char}
    (h : fs.file = some content) (hm : substr sessionMarker content = false)
    (hs : reSearch toolToks content = some x) (hv : verifyOk v = false) :
    add_session_consult ad role v fs =
      ⟨⟨some content, some content⟩, Status.verifyFailed, true, true, true⟩ := by
  unfold add_session_consult
  rw [h]
  simp [hm, hs, hv]

/-- Pipeline branch: patched, written, verified; the backup is removed. -/
theorem run_vok {ad role : List Char} {v : VerifyResult} {fs : FS} {content : List Char}
    {x : List Char × List (List Char) × List Char}
    (h : fs.file = some content) (hm : substr sessionMarker content = false)
    (hs : reSearch toolToks content = some x) (hv : verifyOk v = true) :
    add_session_consult ad role v fs =
      ⟨⟨some (patchedContent ad role content), none⟩, Status.success, true, true, true⟩ := by
  unfold add_session_consult
  rw [h]
  simp [hm, hs, hv]

/-- Exactly one of the five pipeline branches is taken. -/
theorem run_cases (ad role : List Char) (v : VerifyResult) (fs : FS) :
    (fs.file = none ∧
      add_session_consult ad role v fs = ⟨fs, Status.fileNotFound, false, false, false⟩) ∨
    (∃ content, fs.file = some content ∧ substr sessionMarker content = true ∧
      add_session_consult ad role v fs = ⟨fs, Status.alreadyPatched, false, false, false⟩) ∨
    (∃ content, fs.file = some content ∧ substr sessionMarker content = false ∧
      reSearch toolToks content = none ∧
      add_session_consult ad role v fs =
        ⟨⟨some content, some content⟩, Status.anchorNotFound, true, false, false⟩) ∨
    (∃ content x, fs.file = some content ∧ substr sessionMarker content = false ∧
      reSearch toolToks content = some x ∧ verifyOk v = false ∧
      add_session_consult ad role v fs =
        ⟨⟨some content, some content⟩, Status.verifyFailed, true, true, true⟩) ∨
    (∃ content x, fs.file = some content ∧ substr sessionMarker content = false ∧
      reSearch toolToks content = some x ∧ verifyOk v = true ∧
      add_session_consult ad role v fs =
        ⟨⟨some (patchedContent ad role content), none⟩, Status.success, true, true, true⟩) := by
  cases hf : fs.file with
  | none => exact Or.inl ⟨rfl, run_none hf⟩
  | some content =>
    cases hm : substr sessionMarker content with
    | true => exact Or.inr (Or.inl ⟨content, rfl, hm, run_skip hf hm⟩)
    | false =>
      cases hs : reSearch toolToks content with
      | none => exact Or.inr (Or.inr (Or.inl ⟨content, rfl, hm, hs, run_noanchor hf hm hs⟩))
      | some x =>
        cases hv : verifyOk v with
        | false =>
          exact Or.inr (Or.inr (Or.inr (Or.inl
            ⟨content, x, rfl, hm, hs, rfl, run_vfail hf hm hs hv⟩)))
        | true =>
          exact Or.inr (Or.inr (Or.inr (Or.inr
            ⟨content, x, rfl, hm, hs, rfl, run_vok hf hm hs hv⟩)))

/-- Unfolding one `re.sub` replacement step. -/
theorem reSubAux_eq_of_some {toks : List RTok} {repl : List (List Char) → List Char}
    {s p rest : List Char} {segs : List (List Char)} {n : Nat}
    (h : reSearch toks s = some (p, segs, rest)) :
    reSubAux toks repl (n + 1) s = p ++ repl segs ++ reSubAux toks repl n rest := by
  rw [reSubAux, h]

/-- Searching the empty string for the tools-list-end pattern fails. -/
theorem reSearch_toolToks_nil : reSearch toolToks [] = none := by decide

/-- C5: a verifier invocation is judged successful if and only if the build
command exits with code 0 and its captured stdout contains the substring
`Generated`; in particular a zero exit code with stdout lacking that
substring is judged a failure. -/
theorem c5_verifier_policy (v : VerifyResult) :
    verifyOk v = true ↔ (v.returncode = 0 ∧ generatedMarker <:+: v.stdout) := by
  simp [verifyOk, Bool.and_eq_true, beq_iff_eq, substr_iff]

/-- C1: whenever the patched file has been written (file present, marker
absent, list-end anchor found) and the verifier run does not prove success,
the pipeline reports `verifyFailed`, returns `False`, and the target file's
content after the run equals its content before the run, restored from the
backup. -/
theorem c1_verify_failure_restores (ad role : List Char) (v : VerifyResult) (fs : FS)
    (content : List Char) (hfile : fs.file = some content)
    (hmark : substr sessionMarker content = false)
    (hanchor : (reSearch toolToks content).isSome = true)
    (hver : verifyOk v = false) :
    (add_session_consult ad role v fs).status = Status.verifyFailed ∧
    retOf (add_session_consult ad role v fs).status = false ∧
    (add_session_consult ad role v fs).wroteFile = true ∧
    (add_session_consult ad role v fs).ranVerifier = true ∧
    (add_session_consult ad role v fs).fs.file = some content := by
  obtain ⟨x, hx⟩ := Option.isSome_iff_exists.mp hanchor
  rw [run_vfail hfile hmark hx hver]
  exact ⟨rfl, rfl, rfl, rfl, rfl⟩

/-- C1 witness: a concrete run on `base0` with exit code 0 but stdout lacking
`Generated` is reported failed and leaves the file equal to `base0`. -/
theorem c1_verify_failure_restores_witness :
    (add_session_consult ad0 role0 vFail fs0).status = Status.verifyFailed ∧
    retOf (add_session_consult ad0 role0 vFail fs0).status = false ∧
    (add_session_consult ad0 role0 vFail fs0).wroteFile = true ∧
    (add_session_consult ad0 role0 vFail fs0).ranVerifier = true ∧
    (add_session_consult ad0 role0 vFail fs0).fs.file = some base0 :=
  c1_verify_failure_restores ad0 role0 vFail fs0 base0 rfl (by decide) (by decide) (by decide)

/-- C2 counterexample: after a concrete run that fails verification, the
backup file still exists on disk, contradicting the claim that no backup
file exists after any completed run. -/
theorem c2_backup_counterexample :
    (add_session_consult ad0 role0 vFail fs0).status = Status.verifyFailed ∧
    (add_session_consult ad0 role0 vFail fs0).fs.backup = some base0 := by
  constructor
  · decide
  · decide

/-- C2 amended: starting from a state with no backup, the backup file is
absent after the run exactly on the success, skip and file-not-found exits;
after an anchor-not-found or verification-failure exit a backup file
remains on disk (the restore path rewrites the file but never deletes the
backup, and the anchor check runs after the backup is written). -/
theorem c2_backup_lifecycle (ad role : List Char) (v : VerifyResult) (fs : FS)
    (h0 : fs.backup = none) :
    ((add_session_consult ad role v fs).status = Status.success ∨
     (add_session_consult ad role v fs).status = Status.alreadyPatched ∨
     (add_session_consult ad role v fs).status = Status.fileNotFound →
      (add_session_consult ad role v fs).fs.backup = none) ∧
    ((add_session_consult ad role v fs).status = Status.anchorNotFound ∨
     (add_session_consult ad role v fs).status = Status.verifyFailed →
      (add_session_consult ad role v fs).fs.backup ≠ none) := by
  rcases run_cases ad role v fs with ⟨hf, hrun⟩ | ⟨content, hf, hm, hrun⟩ |
    ⟨content, hf, hm, hs, hrun⟩ | ⟨content, x, hf, hm, hs, hv, hrun⟩ |
    ⟨content, x, hf, hm, hs, hv, hrun⟩ <;>
    rw [hrun] <;> exact ⟨fun hst => by simp_all, fun hst => by simp_all⟩

/-- C2 witness: on the concrete successful run no backup remains. -/
theorem c2_backup_lifecycle_witness :
    (add_session_consult ad0 role0 vOk fs0).fs.backup = none :=
  (c2_backup_lifecycle ad0 role0 vOk fs0 rfl).1 (Or.inl (by decide))

/-- C8 counterexample: on a concrete file lacking the list-end anchor the
run is reported failed with the file untouched, but a backup file is
created and remains on disk, contradicting the claim that no backup exists
at any point during or after the run. -/
theorem c8_backup_created_counterexample :
    (add_session_consult ad0 role0 vOk fsNoAnchor).status = Status.anchorNotFound ∧
    (add_session_consult ad0 role0 vOk fsNoAnchor).madeBackup = true ∧
    (add_session_consult ad0 role0 vOk fsNoAnchor).fs.backup = some noAnchor0 := by
  refine ⟨by decide, by decide, by decide⟩

/-- C8 amended: when the list-end anchor pattern does not match, the target
is reported failed, the target file is untouched, nothing is written and the
verifier is not invoked — but a backup file is created before the anchor
check and remains on disk after the run. -/
theorem c8_anchor_missing_frame (ad role content : List Char) (v : VerifyResult) (fs : FS)
    (hfile : fs.file = some content) (hmark : substr sessionMarker content = false)
    (hanchor : reSearch toolToks content = none) :
    add_session_consult ad role v fs =
      ⟨⟨some content, some content⟩, Status.anchorNotFound, true, false, false⟩ ∧
    retOf (add_session_consult ad role v fs).status = false := by
  rw [run_noanchor hfile hmark hanchor]
  exact ⟨rfl, rfl⟩

/-- C8 witness: the concrete anchor-free file `noAnchor0`. -/
theorem c8_anchor_missing_frame_witness :
    add_session_consult ad0 role0 vOk fsNoAnchor =
      ⟨⟨some noAnchor0, some noAnchor0⟩, Status.anchorNotFound, true, false, false⟩ ∧
    retOf (add_session_consult ad0 role0 vOk fsNoAnchor).status = false :=
  c8_anchor_missing_frame ad0 role0 noAnchor0 vOk fsNoAnchor rfl (by decide) (by decide)

/-- C7: if a first run succeeds, the written content contains the
idempotency marker, so a second run on the resulting state is skipped
before any mutation: it reports `alreadyPatched`, returns `True`, creates
no backup, writes nothing, and leaves the filesystem — hence the final file
content — exactly as the first run left it. -/
theorem c7_idempotent (ad role : List Char) (v v2 : VerifyResult) (fs : FS)
    (h : (add_session_consult ad role v fs).status = Status.success) :
    (add_session_consult ad role v2 (add_session_consult ad role v fs).fs).status
      = Status.alreadyPatched ∧
    retOf (add_session_consult ad role v2 (add_session_consult ad role v fs).fs).status
      = true ∧
    (add_session_consult ad role v2 (add_session_consult ad role v fs).fs).fs
      = (add_session_consult ad role v fs).fs ∧
    (add_session_consult ad role v2 (add_session_consult ad role v fs).fs).madeBackup
      = false ∧
    (add_session_consult ad role v2 (add_session_consult ad role v fs).fs).wroteFile
      = false := by
  rcases run_cases ad role v fs with ⟨hf, hrun⟩ | ⟨content, hf, hm, hrun⟩ |
    ⟨content, hf, hm, hs, hrun⟩ | ⟨content, x, hf, hm, hs, hv, hrun⟩ |
    ⟨content, x, hf, hm, hs, hv, hrun⟩
  · rw [hrun] at h; cases h
  · rw [hrun] at h; cases h
  · rw [hrun] at h; cases h
  · rw [hrun] at h; cases h
  · obtain ⟨p, segs, rest⟩ := x
    have hmk : substr sessionMarker (patchedContent ad role content) = true :=
      substr_iff.mpr (marker_in_patched ad role hs)
    rw [hrun]
    rw [run_skip rfl hmk]
    exact ⟨rfl, rfl, rfl, rfl, rfl⟩

/-- C7 witness: the concrete run on `base0` succeeds, and the theorem then
yields the skipped second run. -/
theorem c7_idempotent_witness :
    (add_session_consult ad0 role0 vOk fs0).status = Status.success ∧
    (add_session_consult ad0 role0 vOk (add_session_consult ad0 role0 vOk fs0).fs).status
      = Status.alreadyPatched :=
  ⟨by decide, (c7_idempotent ad0 role0 vOk vOk fs0 (by decide)).1⟩

/-- C10: if the target's file does not exist, the pipeline returns `False`
(counted as a failure in the summary) without creating a backup, writing any
file, or invoking the verifier; and in a batch the remaining targets are
still processed, the failed target contributing nothing to the success
count. -/
theorem c10_missing_file :
    (∀ (ad role : List Char) (v : VerifyResult) (fs : FS), fs.file = none →
      add_session_consult ad role v fs = ⟨fs, Status.fileNotFound, false, false, false⟩ ∧
      retOf (add_session_consult ad role v fs).status = false) ∧
    (∀ (t : TargetCfg) (ts : List TargetCfg), t.fs.file = none →
      (runBatch (t :: ts)).1 =
        ⟨t.fs, Status.fileNotFound, false, false, false⟩ :: (runBatch ts).1 ∧
      (runBatch (t :: ts)).2 = (runBatch ts).2) := by
  have hone : ∀ (ad role : List Char) (v : VerifyResult) (fs : FS), fs.file = none →
      add_session_consult ad role v fs = ⟨fs, Status.fileNotFound, false, false, false⟩ :=
    fun ad role v fs h => run_none h
  refine ⟨fun ad role v fs h => ⟨hone ad role v fs h, ?_⟩, fun t ts h => ?_⟩
  · rw [hone ad role v fs h]
    rfl
  · have ht : runTarget t = ⟨t.fs, Status.fileNotFound, false, false, false⟩ :=
      hone t.agent_dir t.role t.verifier t.fs h
    constructor
    · simp [runBatch, ht]
    · simp [runBatch, ht, retOf]

/-- C10 witness: a concrete missing-file target. -/
theorem c10_missing_file_witness :
    add_session_consult ad0 role0 vOk fsMissing =
      ⟨fsMissing, Status.fileNotFound, false, false, false⟩ :=
  (c10_missing_file.1 ad0 role0 vOk fsMissing rfl).1

/-- C3 counterexample: on the concrete file `two0`, in which the list-end
pattern occurs twice, the pipeline does not fail — it succeeds, writes the
file, and the written content contains the schema fragment's tool entry at
two positions (the original content contained it at none). -/
theorem c3_ambiguity_counterexample :
    twoMatches toolToks two0 = true ∧
    (add_session_consult ad0 role0 vOk fsTwo).status = Status.success ∧
    (add_session_consult ad0 role0 vOk fsTwo).wroteFile = true ∧
    countOcc toolNameSnippet two0 = 0 ∧
    countOcc toolNameSnippet ((add_session_consult ad0 role0 vOk fsTwo).fs.file.getD []) = 2 := by
  refine ⟨by decide, by decide, by decide, (countIs_iff _ _).mp (by decide),
    (countIs_iff _ _).mp (by decide)⟩

/-- C3 amended: when the list-end pattern occurs more than once, the
pipeline does not fail with an ambiguity error: the anchor check passes, the
file is written and the verifier runs, and `re.sub` has inserted the schema
template at every non-overlapping occurrence — in particular at both of the
first two. -/
theorem c3_multi_match_proceeds (ad role content : List Char) (v : VerifyResult) (fs : FS)
    (hfile : fs.file = some content) (hmark : substr sessionMarker content = false)
    (htwo : twoMatches toolToks content = true) :
    (add_session_consult ad role v fs).status ≠ Status.anchorNotFound ∧
    (add_session_consult ad role v fs).wroteFile = true ∧
    (add_session_consult ad role v fs).ranVerifier = true ∧
    (∃ a b c : List Char, reSub toolToks toolRepl content =
      a ++ TOOL_DEF_TEMPLATE.data ++ b ++ TOOL_DEF_TEMPLATE.data ++ c) := by
  unfold twoMatches at htwo
  cases hs1 : reSearch toolToks content with
  | none => rw [hs1] at htwo; simp at htwo
  | some x1 =>
    obtain ⟨p1, segs1, rest1⟩ := x1
    rw [hs1] at htwo
    have htwo' : (reSearch toolToks rest1).isSome = true := htwo
    obtain ⟨x2, hs2⟩ := Option.isSome_iff_exists.mp htwo'
    obtain ⟨p2, segs2, rest2⟩ := x2
    have hrun : (add_session_consult ad role v fs).status ≠ Status.anchorNotFound ∧
        (add_session_consult ad role v fs).wroteFile = true ∧
        (add_session_consult ad role v fs).ranVerifier = true := by
      cases hv : verifyOk v with
      | true => rw [run_vok hfile hmark hs1 hv]; exact ⟨by simp, rfl, rfl⟩
      | false => rw [run_vfail hfile hmark hs1 hv]; exact ⟨by simp, rfl, rfl⟩
    refine ⟨hrun.1, hrun.2.1, hrun.2.2, ?_⟩
    cases content with
    | nil => rw [reSearch_toolToks_nil] at hs1; cases hs1
    | cons c cs =>
      have e1 : reSub toolToks toolRepl (c :: cs) =
          p1 ++ toolRepl segs1 ++ reSubAux toolToks toolRepl ((c :: cs).length) rest1 :=
        reSub_eq_of_some hs1
      have e2 : reSubAux toolToks toolRepl ((c :: cs).length) rest1 =
          p2 ++ toolRepl segs2 ++ reSubAux toolToks toolRepl (cs.length) rest2 := by
        rw [List.length_cons]
        exact reSubAux_eq_of_some hs2
      refine ⟨p1 ++ (segs1.take 2).flatten ++ (",").data,
        ("\n    ").data ++ (segs1.drop 3).flatten ++ p2 ++
          (segs2.take 2).flatten ++ (",").data,
        ("\n    ").data ++ (segs2.drop 3).flatten ++
          reSubAux toolToks toolRepl (cs.length) rest2, ?_⟩
      rw [e1, e2]
      simp [toolRepl, List.append_assoc]

/-- C3 witness: the two-anchor file `two0` instantiates the amended claim. -/
theorem c3_multi_match_proceeds_witness :
    (add_session_consult ad0 role0 vOk fsTwo).status ≠ Status.anchorNotFound ∧
    (add_session_consult ad0 role0 vOk fsTwo).wroteFile = true ∧
    (add_session_consult ad0 role0 vOk fsTwo).ranVerifier = true ∧
    (∃ a b c : List Char, reSub toolToks toolRepl two0 =
      a ++ TOOL_DEF_TEMPLATE.data ++ b ++ TOOL_DEF_TEMPLATE.data ++ c) :=
  c3_multi_match_proceeds ad0 role0 two0 vOk fsTwo rfl (by decide) (by decide)

/-- C4 counterexample: on the concrete file `noCatch0`, whose content lacks
the catch-all handler declaration, the pipeline does not report
`anchorNotFound` with the file untouched — it writes the file and reports
success. -/
theorem c4_missing_catchall_counterexample :
    substr (("def execute_tool(name, _args) do").data) noCatch0 = false ∧
    (add_session_consult ad0 role0 vOk fsNoCatch).status = Status.success ∧
    (add_session_consult ad0 role0 vOk fsNoCatch).wroteFile = true := by
  refine ⟨by decide, by decide, by decide⟩

/-- C4 amended: when the catch-all pattern does not match the patched
content, the pipeline does not fail: the step-2 substitution silently leaves
the content unchanged, the file is written (schema and helper fragments but
no dispatch fragment) and, when the verifier proves success, that content is
what remains on disk. -/
theorem c4_missing_catchall_writes (ad role content : List Char) (v : VerifyResult) (fs : FS)
    (hfile : fs.file = some content) (hmark : substr sessionMarker content = false)
    (hanchor : (reSearch toolToks content).isSome = true)
    (hcatch : reSearch catchToks (reSub toolToks toolRepl content) = none) :
    (add_session_consult ad role v fs).status ≠ Status.anchorNotFound ∧
    (add_session_consult ad role v fs).wroteFile = true ∧
    (verifyOk v = true →
      (add_session_consult ad role v fs).fs.file =
        some (rstrip (reSub toolToks toolRepl content) ++ helper_code ad role ++
          ("\nend\n").data)) := by
  obtain ⟨x, hx⟩ := Option.isSome_iff_exists.mp hanchor
  have hpc : patchedContent ad role content =
      rstrip (reSub toolToks toolRepl content) ++ helper_code ad role ++
        ("\nend\n").data := by
    unfold patchedContent
    rw [reSub_eq_of_none hcatch]
  cases hv : verifyOk v with
  | true =>
    rw [run_vok hfile hmark hx hv]
    exact ⟨by simp, rfl, fun _ => by rw [hpc]⟩
  | false =>
    rw [run_vfail hfile hmark hx hv]
    exact ⟨by simp, rfl, fun hcon => by cases hcon⟩

/-- C4 witness: the concrete file `noCatch0`. -/
theorem c4_missing_catchall_writes_witness :
    (add_session_consult ad0 role0 vOk fsNoCatch).status ≠ Status.anchorNotFound ∧
    (add_session_consult ad0 role0 vOk fsNoCatch).wroteFile = true ∧
    (verifyOk vOk = true →
      (add_session_consult ad0 role0 vOk fsNoCatch).fs.file =
        some (rstrip (reSub toolToks toolRepl noCatch0) ++ helper_code ad0 role0 ++
          ("\nend\n").data)) :=
  c4_missing_catchall_writes ad0 role0 noCatch0 vOk fsNoCatch rfl (by decide)
    (by decide) (by decide)

/-- C6: what the code actually does at the module-end anchor, evaluated on
the concrete successful run on `base0`: the written content is
`rstrip(content) ++ helper ++ "\nend\n"`, so the helper fragment lands
immediately after the original module-closing `end` (the substring
`end ++ helper` occurs in the output) with a brand-new `end` appended after
it — it is not the result of inserting the helper before the final `end`
closing token, as the spec (and the script's own comment) describe. -/
theorem c6_helper_appended_after_module_end :
    (add_session_consult ad0 role0 vOk fs0).fs.file =
      some (patchedContent ad0 role0 base0) ∧
    patchedContent ad0 role0 base0 =
      rstrip (reSub catchToks (catchRepl ad0 role0) (reSub toolToks toolRepl base0)) ++
        helper_code ad0 role0 ++ ("\nend\n").data ∧
    substr (("end").data ++ helper_code ad0 role0) (patchedContent ad0 role0 base0)
      = true ∧
    patchedContent ad0 role0 base0 ≠
      insertBeforeFinalEnd
        (reSub catchToks (catchRepl ad0 role0) (reSub toolToks toolRepl base0))
        (helper_code ad0 role0) := by
  refine ⟨?_, rfl, by decide, ?_⟩
  · obtain ⟨x, hx⟩ := Option.isSome_iff_exists.mp
      (show (reSearch toolToks base0).isSome = true by decide)
    rw [run_vok rfl (by decide) hx (by decide)]
  · intro hEq
    have h1 : (patchedContent ad0 role0 base0).length = 2716 :=
      (lenIs_iff _ _).mp (by decide)
    have h2 : (insertBeforeFinalEnd
        (reSub catchToks (catchRepl ad0 role0) (reSub toolToks toolRepl base0))
        (helper_code ad0 role0)).length = 2712 :=
      (lenIs_iff _ _).mp (by decide)
    rw [hEq] at h1
    omega

/-- C9: the batch orchestrator processes every target in the caller-supplied
order and returns one result per target with the count of `True` returns;
in particular in a batch of three targets where the second fails, the third
is still processed and the summary reports 2 of 3. -/
theorem c9_batch_never_aborts :
    (∀ ts : List TargetCfg, (runBatch ts).1 = ts.map runTarget ∧
      (runBatch ts).2 = (ts.map runTarget).countP (fun r => retOf r.status)) ∧
    (∀ t1 t2 t3 : TargetCfg, retOf (runTarget t1).status = true →
      retOf (runTarget t2).status = false → retOf (runTarget t3).status = true →
      (runBatch [t1, t2, t3]).1 = [runTarget t1, runTarget t2, runTarget t3] ∧
      (runBatch [t1, t2, t3]).2 = 2) := by
  constructor
  · intro ts
    induction ts with
    | nil => exact ⟨rfl, rfl⟩
    | cons t ts ih =>
      refine ⟨by simp [runBatch, ih.1], ?_⟩
      have h2 := ih.2
      cases hb : retOf (runTarget t).status
      · simp [runBatch, List.countP_cons, h2, hb]
      · simp [runBatch, List.countP_cons, h2, hb]
        omega
  · intro t1 t2 t3 h1 h2 h3
    refine ⟨rfl, ?_⟩
    simp [runBatch, h1, h2, h3]

/-- C9 witness: a concrete batch in which target 2 fails verification;
targets 1 and 3 succeed and the summary counts 2. -/
theorem c9_batch_never_aborts_witness :
    (runBatch [tgt1, tgt2, tgt1]).1 =
      [runTarget tgt1, runTarget tgt2, runTarget tgt1] ∧
    (runBatch [tgt1, tgt2, tgt1]).2 = 2 :=
  c9_batch_never_aborts.2 tgt1 tgt2 tgt1 (by decide) (by decide) (by decide)

end Echo
